import Mathlib

/-!
Shallow embedding of `tracing.h`, a header-only C++ leveled-logging library.
Levels are an enum over `uint32_t`; emission entry points compare the global
builder's level against a threshold, then render the message, build a
`Record` and hand it to the configured formatter.  Emission is modelled as
the list of observable effects it performs.
-/

namespace Tracing

/-- The five log levels, `enum class Level : uint32_t`. -/
inductive Level where
  | Trace
  | Debug
  | Info
  | Warning
  | Error
deriving DecidableEq, Repr

/-- `static_cast<uint32_t>(level)`: the underlying enum value. -/
def Level.toUInt32 : Level → Nat
  | .Trace => 0
  | .Debug => 1
  | .Info => 2
  | .Warning => 3
  | .Error => 4

/-- `operator<(Level, Level)`: comparison of the underlying `uint32_t` values. -/
def levelLt (lhs rhs : Level) : Bool :=
  Nat.blt lhs.toUInt32 rhs.toUInt32

/-- The built-in `>` on the enum's underlying values, used by the emission
entry points (`Builder::g_builder.level > Level::...`). -/
def levelGt (lhs rhs : Level) : Bool :=
  levelLt rhs lhs

/-- A `std::source_location`: file name, line and column of the call site. -/
structure SourceLocation where
  file : String
  line : Nat
  column : Nat
deriving DecidableEq, Repr

/-- `class Record`: a level, the fully rendered message (`args`), and the
call-site location, stored as given by the constructor. -/
structure Record where
  level : Level
  args : String
  loc : SourceLocation
deriving DecidableEq, Repr

/-- `Record::get_level`. -/
def Record.get_level (r : Record) : Level := r.level

/-- `Record::get_args`. -/
def Record.get_args (r : Record) : String := r.args

/-- `Record::get_loc`. -/
def Record.get_loc (r : Record) : SourceLocation := r.loc

/-- `default_formatter`: renders a `Record` into the byte string written to
the sink.  The switch picks an ANSI-colored level name; the rest mirrors the
stream inserts `" " << file << ":" << line << ":" << column << "] " << args
<< std::endl`. -/
def default_formatter (record : Record) : String :=
  let colored :=
    match record.get_level with
    | Level.Trace => "\x1b[37mTRACE\x1b[0m"
    | Level.Debug => "\x1b[34mDEBUG\x1b[0m"
    | Level.Info => "\x1b[32mINFO\x1b[0m"
    | Level.Warning => "\x1b[33mWARNING\x1b[0m"
    | Level.Error => "\x1b[31mERROR\x1b[0m"
  "[" ++ colored ++ " " ++ record.get_loc.file ++ ":" ++
    toString record.get_loc.line ++ ":" ++ toString record.get_loc.column ++
    "] " ++ record.get_args ++ "\n"

/-- `class Builder`: the configuration, a minimum level and a formatter. -/
structure Builder where
  level : Level
  formatter : Record → String

/-- `Builder::Builder()`: level `Warning`, formatter `default_formatter`. -/
def Builder.default : Builder :=
  ⟨Level.Warning, default_formatter⟩

/-- Per-character `std::tolower` applied by `std::transform` in `from_env`
(ASCII lowering, as in the C locale). -/
def toLowerStr (s : String) : String :=
  ⟨s.data.map Char.toLower⟩

/-- `Builder::from_env`: the environment lookup `getenv(name)` is passed in
as `env : Option String`.  When set, the value is lowercased and matched
against the five level names; any other value leaves the default builder
untouched. -/
def Builder.from_env (env : Option String) : Builder :=
  let b := Builder.default
  match env with
  | none => b
  | some cpp_log =>
    let log_level := toLowerStr cpp_log
    if log_level = "trace" then { b with level := Level.Trace }
    else if log_level = "debug" then { b with level := Level.Debug }
    else if log_level = "info" then { b with level := Level.Info }
    else if log_level = "warning" then { b with level := Level.Warning }
    else if log_level = "error" then { b with level := Level.Error }
    else b

/-- `Builder::init`: `g_builder = std::move(*this)` — the process-wide
configuration `g` is replaced wholesale by `self`. -/
def Builder.init (self _g : Builder) : Builder :=
  self

/-- The observable effects of one emission call: rendering the template
with its arguments, constructing a `Record`, and invoking the formatter
(with the bytes it writes). -/
inductive Effect where
  | rendered (msg : String)
  | constructed (r : Record)
  | invoked (out : String)
deriving DecidableEq, Repr

/-- `struct trace`: suppressed when `g_builder.level > Level::Debug`;
otherwise formats the message (modelled by forcing the `render` thunk),
builds a `Record` at level `Trace` and invokes the formatter. -/
def trace (g : Builder) (render : Unit → String) (loc : SourceLocation) : List Effect :=
  if levelGt g.level Level.Debug then []
  else
    let message := render ()
    let record : Record := ⟨Level.Trace, message, loc⟩
    [Effect.rendered message, Effect.constructed record,
     Effect.invoked (g.formatter record)]

/-- `struct debug`: suppressed when `g_builder.level > Level::Debug`. -/
def debug (g : Builder) (render : Unit → String) (loc : SourceLocation) : List Effect :=
  if levelGt g.level Level.Debug then []
  else
    let message := render ()
    let record : Record := ⟨Level.Debug, message, loc⟩
    [Effect.rendered message, Effect.constructed record,
     Effect.invoked (g.formatter record)]

/-- `struct info`: suppressed when `g_builder.level > Level::Info`. -/
def info (g : Builder) (render : Unit → String) (loc : SourceLocation) : List Effect :=
  if levelGt g.level Level.Info then []
  else
    let message := render ()
    let record : Record := ⟨Level.Info, message, loc⟩
    [Effect.rendered message, Effect.constructed record,
     Effect.invoked (g.formatter record)]

/-- `struct warning`: suppressed when `g_builder.level > Level::Warning`. -/
def warning (g : Builder) (render : Unit → String) (loc : SourceLocation) : List Effect :=
  if levelGt g.level Level.Warning then []
  else
    let message := render ()
    let record : Record := ⟨Level.Warning, message, loc⟩
    [Effect.rendered message, Effect.constructed record,
     Effect.invoked (g.formatter record)]

/-- `struct error`: suppressed when `g_builder.level > Level::Error`. -/
def error (g : Builder) (render : Unit → String) (loc : SourceLocation) : List Effect :=
  if levelGt g.level Level.Error then []
  else
    let message := render ()
    let record : Record := ⟨Level.Error, message, loc⟩
    [Effect.rendered message, Effect.constructed record,
     Effect.invoked (g.formatter record)]

/-- The emission entry point whose severity is the given level. -/
def emitAt : Level → Builder → (Unit → String) → SourceLocation → List Effect
  | Level.Trace => trace
  | Level.Debug => debug
  | Level.Info => info
  | Level.Warning => warning
  | Level.Error => error

/-- Whether a list of emission effects includes a formatter invocation. -/
def invokedFormatter (es : List Effect) : Bool :=
  es.any fun e =>
    match e with
    | Effect.invoked _ => true
    | _ => false

/-- The ANSI color code the spec assigns to each level (spec-side helper
for stating the line shape). -/
def spec_ansiColor : Level → String
  | Level.Trace => "\x1b[37m"
  | Level.Debug => "\x1b[34m"
  | Level.Info => "\x1b[32m"
  | Level.Warning => "\x1b[33m"
  | Level.Error => "\x1b[31m"

/-- The display name the spec assigns to each level (spec-side helper). -/
def spec_levelName : Level → String
  | Level.Trace => "TRACE"
  | Level.Debug => "DEBUG"
  | Level.Info => "INFO"
  | Level.Warning => "WARNING"
  | Level.Error => "ERROR"

/-- C1: the claim "emitted iff M >= L" fails at configured level `Debug`
with message level `Trace`: the `trace` entry point compares the configured
level against `Level::Debug`, not against its own severity, so the
formatter is invoked although `Trace < Debug`. -/
theorem C1_trace_emitted_below_configured_level :
    levelLt Level.Trace Level.Debug = true ∧
    invokedFormatter
      (trace ⟨Level.Debug, default_formatter⟩ (fun _ => "m") ⟨"f.cc", 1, 2⟩) = true := by
  exact ⟨rfl, rfl⟩

/-- C2: at configured level `Debug`, invoking `trace` (whose severity is
strictly less severe) does not return immediately: it renders the template,
constructs a `Record`, and invokes the formatter. -/
theorem C2_trace_effects_below_configured_level :
    levelLt Level.Trace Level.Debug = true ∧
    trace ⟨Level.Debug, default_formatter⟩ (fun _ => "m") ⟨"f.cc", 1, 2⟩ =
      [Effect.rendered "m",
       Effect.constructed ⟨Level.Trace, "m", ⟨"f.cc", 1, 2⟩⟩,
       Effect.invoked (default_formatter ⟨Level.Trace, "m", ⟨"f.cc", 1, 2⟩⟩)] := by
  exact ⟨rfl, rfl⟩

/-- C3: emitting exactly at the configured minimum level is never
suppressed: for every level `L`, the entry point of severity `L` under a
configuration whose level is `L` invokes the formatter. -/
theorem C3_exact_level_never_suppressed (L : Level) (fmt : Record → String)
    (render : Unit → String) (loc : SourceLocation) :
    invokedFormatter (emitAt L ⟨L, fmt⟩ render loc) = true := by
  cases L <;> rfl

/-- C4: the default formatter's exact output: the concrete `Info` example
from the spec, and in general the line is
`bracket, color, NAME, reset, space, file, colon, line, colon, column,
bracket-space, message, newline`. -/
theorem C4_default_formatter_exact_output :
    default_formatter ⟨Level.Info, "bar", ⟨"foo.ext", 3, 7⟩⟩ =
      "[\x1b[32mINFO\x1b[0m foo.ext:3:7] bar\n" ∧
    ∀ (lvl : Level) (file : String) (line col : Nat) (msg : String),
      default_formatter ⟨lvl, msg, ⟨file, line, col⟩⟩ =
        "[" ++ spec_ansiColor lvl ++ spec_levelName lvl ++ "\x1b[0m" ++ " " ++
          file ++ ":" ++ toString line ++ ":" ++ toString col ++ "] " ++
          msg ++ "\n" := by
  constructor
  · rfl
  · intro lvl file line col msg
    cases lvl <;> rfl

/-- C5: a value whose lowercasing is one of the five level names parses to
the matching level (hence every letter-casing of a name does); any other
value keeps the level already in effect, the default `Warning`. -/
theorem C5_level_parsing (s : String) :
    (toLowerStr s = "trace" → (Builder.from_env (some s)).level = Level.Trace) ∧
    (toLowerStr s = "debug" → (Builder.from_env (some s)).level = Level.Debug) ∧
    (toLowerStr s = "info" → (Builder.from_env (some s)).level = Level.Info) ∧
    (toLowerStr s = "warning" → (Builder.from_env (some s)).level = Level.Warning) ∧
    (toLowerStr s = "error" → (Builder.from_env (some s)).level = Level.Error) ∧
    (toLowerStr s ≠ "trace" → toLowerStr s ≠ "debug" → toLowerStr s ≠ "info" →
      toLowerStr s ≠ "warning" → toLowerStr s ≠ "error" →
      (Builder.from_env (some s)).level = Level.Warning) := by
  refine ⟨fun h => ?_, fun h => ?_, fun h => ?_, fun h => ?_, fun h => ?_,
    fun h1 h2 h3 h4 h5 => ?_⟩ <;>
    simp_all [Builder.from_env, Builder.default]

/-- C5 witness: a mixed-case recognized name and an unrecognized name. -/
theorem C5_level_parsing_witness :
    (Builder.from_env (some "TrAcE")).level = Level.Trace ∧
    (Builder.from_env (some "verbose")).level = Level.Warning := by
  refine ⟨(C5_level_parsing "TrAcE").1 (by decide), ?_⟩
  exact (C5_level_parsing "verbose").2.2.2.2.2 (by decide) (by decide)
    (by decide) (by decide) (by decide)

/-- C6: with the environment variable unset, `from_env` returns exactly the
default configuration: level `Warning` and the default formatter. -/
theorem C6_from_env_unset_is_default :
    Builder.from_env none = Builder.default ∧
    (Builder.from_env none).level = Level.Warning ∧
    (Builder.from_env none).formatter = default_formatter :=
  ⟨rfl, rfl, rfl⟩

/-- C7: the default configuration has level `Warning` and the default
formatter; `init` replaces the global configuration wholesale, so a `debug`
emission is suppressed under the default and emitted after `init` of a
configuration at level `Debug`. -/
theorem C7_init_replaces_configuration (render : Unit → String)
    (loc : SourceLocation) (fmt : Record → String) :
    Builder.default.level = Level.Warning ∧
    Builder.default.formatter = default_formatter ∧
    debug Builder.default render loc = [] ∧
    invokedFormatter
      (debug ((Builder.mk Level.Debug fmt).init Builder.default) render loc) = true :=
  ⟨rfl, rfl, rfl, rfl⟩

/-- C8: `Record` construction accepts any level, any message string, and
any location, and the read accessors return exactly what was stored. -/
theorem C8_record_accessors (lvl : Level) (msg : String) (loc : SourceLocation) :
    (Record.mk lvl msg loc).get_level = lvl ∧
    (Record.mk lvl msg loc).get_args = msg ∧
    (Record.mk lvl msg loc).get_loc = loc :=
  ⟨rfl, rfl, rfl⟩

/-- C9: `trace` and `debug` compare the configured level against the same
threshold (`Debug`), so under every configuration one is suppressed exactly
when the other is. -/
theorem C9_trace_debug_identical_filtering (g : Builder)
    (r1 r2 : Unit → String) (l1 l2 : SourceLocation) :
    invokedFormatter (trace g r1 l1) = invokedFormatter (debug g r2 l2) ∧
    (trace g r1 l1 = [] ↔ debug g r2 l2 = []) := by
  cases h : levelGt g.level Level.Debug <;>
    simp [trace, debug, invokedFormatter, h]

/-- C10: `from_env` never alters the formatter relative to the default
configuration: for every environment state the resulting configuration
carries the default formatter. -/
theorem C10_from_env_preserves_formatter (env : Option String) :
    (Builder.from_env env).formatter = Builder.default.formatter ∧
    (Builder.from_env env).formatter = default_formatter := by
  have h : (Builder.from_env env).formatter = default_formatter := by
    cases env with
    | none => rfl
    | some s =>
      simp only [Builder.from_env]
      split_ifs <;> rfl
  exact ⟨h, h⟩

end Tracing
